import Mathlib

/-! DRM buffer constraints: constants, wire codec and negotiation.

A verification development for `include/uapi/drm/drm_buffer_constraints.h`.

The header declares the identifiers, type discriminants, placement namespaces
and flag bits of the buffer constraint interface; those are embedded below
under their source names, and its struct declarations are laid out by the C
rule for a target given as a parameter.  The header contains no functions:
the codec, the placement validation and the negotiation session are described
only by the design document, and every definition that embeds one of them says
so in its doc comment.

Machine integers are natural numbers; a `__u32` field is a natural number
below `2 ^ 32`, and a byte buffer is a list of byte values.
-/

namespace DrmBufferConstraints

/-! ## Constants of the header -/

/-- Constraint id `DRM_BUFFER_CONSTRAINT_PLACEMENT` (`enum drm_buffer_constraint_id`). -/
def DRM_BUFFER_CONSTRAINT_PLACEMENT : Nat := 1
/-- Constraint id `DRM_BUFFER_CONSTRAINT_ADDRESS_ALIGNMENT`. -/
def DRM_BUFFER_CONSTRAINT_ADDRESS_ALIGNMENT : Nat := 2
/-- Constraint id `DRM_BUFFER_CONSTRAINT_ADDRESS_MASK`. -/
def DRM_BUFFER_CONSTRAINT_ADDRESS_MASK : Nat := 3
/-- Constraint id `DRM_BUFFER_CONSTRAINT_CACHE`. -/
def DRM_BUFFER_CONSTRAINT_CACHE : Nat := 4
/-- Constraint id `DRM_BUFFER_CONSTRAINT_CONTIGUOUS`. -/
def DRM_BUFFER_CONSTRAINT_CONTIGUOUS : Nat := 5

/-- The enumerators of `enum drm_buffer_constraint_id`, in declaration order. -/
def drm_buffer_constraint_id : List Nat :=
  [DRM_BUFFER_CONSTRAINT_PLACEMENT, DRM_BUFFER_CONSTRAINT_ADDRESS_ALIGNMENT,
   DRM_BUFFER_CONSTRAINT_ADDRESS_MASK, DRM_BUFFER_CONSTRAINT_CACHE,
   DRM_BUFFER_CONSTRAINT_CONTIGUOUS]

/-- Placement namespace `GLOBAL`. -/
def DRM_BUFFER_CONSTRAINT_PLACEMENT_NAMESPACE_GLOBAL : Nat := 1
/-- Global placement id `SYSTEM`. -/
def DRM_BUFFER_CONSTRAINT_PLACEMENT_ID_GLOBAL_SYSTEM : Nat := 0
/-- Global placement id `SYSTEM_CONTIGUOUS`. -/
def DRM_BUFFER_CONSTRAINT_PLACEMENT_ID_GLOBAL_SYSTEM_CONTIGUOUS : Nat := 1
/-- Global placement id `PCI`. -/
def DRM_BUFFER_CONSTRAINT_PLACEMENT_ID_GLOBAL_PCI : Nat := 2
/-- Placement namespace `DMABUF_HEAP`. -/
def DRM_BUFFER_CONSTRAINT_PLACEMENT_NAMESPACE_DMABUF_HEAP : Nat := 2
/-- Placement namespace `DRM`. -/
def DRM_BUFFER_CONSTRAINT_PLACEMENT_NAMESPACE_DRM : Nat := 3
/-- In the DRM namespace, id 0 has the semantics of local memory of the
queried device. -/
def DRM_BUFFER_CONSTRAINT_PLACEMENT_ID_DRM_LOCAL : Nat := 0

/-- Placement attribute bit `SYSTEM`, `(1 << 0)`. -/
def DRM_BUFFER_CONSTRAINT_PLACEMENT_ATTRIBUTE_SYSTEM : Nat := 1 <<< 0
/-- Placement attribute bit `CONTIGUOUS`, `(1 << 1)`. -/
def DRM_BUFFER_CONSTRAINT_PLACEMENT_ATTRIBUTE_CONTIGUOUS : Nat := 1 <<< 1
/-- Placement attribute bit `DEVICE`, `(1 << 3)`. -/
def DRM_BUFFER_CONSTRAINT_PLACEMENT_ATTRIBUTE_DEVICE : Nat := 1 <<< 3

/-- Constraint type discriminant `U32`. -/
def DRM_BUFFER_CONSTRAINT_TYPE_U32 : Nat := 1
/-- Constraint type discriminant `U64`. -/
def DRM_BUFFER_CONSTRAINT_TYPE_U64 : Nat := 2
/-- Constraint type discriminant `BOOL`. -/
def DRM_BUFFER_CONSTRAINT_TYPE_BOOL : Nat := 3
/-- Constraint type discriminant `BLOB`. -/
def DRM_BUFFER_CONSTRAINT_TYPE_BLOB : Nat := 4

/-- Query atom id `FORMAT`, commented `type: u32` in the header. -/
def DRM_BUFFER_CONSTRAINT_QUERY_ATOM_ID_FORMAT : Nat := 1
/-- Query atom id `MODIFIER`, commented `type: u64` in the header. -/
def DRM_BUFFER_CONSTRAINT_QUERY_ATOM_ID_MODIFIER : Nat := 2
/-- Query atom id `WIDTH`, commented `type: u32` in the header. -/
def DRM_BUFFER_CONSTRAINT_QUERY_ATOM_ID_WIDTH : Nat := 3
/-- Query atom id `HEIGHT`, commented `type: u32` in the header. -/
def DRM_BUFFER_CONSTRAINT_QUERY_ATOM_ID_HEIGHT : Nat := 4

/-- The query atom ids of the header, in declaration order. -/
def drm_buffer_constraint_query_atom_id : List Nat :=
  [DRM_BUFFER_CONSTRAINT_QUERY_ATOM_ID_FORMAT, DRM_BUFFER_CONSTRAINT_QUERY_ATOM_ID_MODIFIER,
   DRM_BUFFER_CONSTRAINT_QUERY_ATOM_ID_WIDTH, DRM_BUFFER_CONSTRAINT_QUERY_ATOM_ID_HEIGHT]

/-- Query atom type discriminant `U32`. -/
def DRM_BUFFER_CONSTRAINT_QUERY_ATOM_TYPE_U32 : Nat := 1
/-- Query atom type discriminant `U64`. -/
def DRM_BUFFER_CONSTRAINT_QUERY_ATOM_TYPE_U64 : Nat := 2
/-- Query atom type discriminant `BLOB`. -/
def DRM_BUFFER_CONSTRAINT_QUERY_ATOM_TYPE_BLOB : Nat := 3

/-- Target bit `RENDER`, `(1 << 1)`. -/
def DRM_BUFFER_CONSTRAINT_TARGET_RENDER : Nat := 1 <<< 1
/-- Target bit `SCANOUT`, `(1 << 2)`. -/
def DRM_BUFFER_CONSTRAINT_TARGET_SCANOUT : Nat := 1 <<< 2
/-- Target bit `TEXTURE`, `(1 << 3)`. -/
def DRM_BUFFER_CONSTRAINT_TARGET_TEXTURE : Nat := 1 <<< 3
/-- Usage bit `CPU_READ`, `(1 << 1)`. -/
def DRM_BUFFER_CONSTRAINT_USAGE_CPU_READ : Nat := 1 <<< 1
/-- Usage bit `CPU_WRITE`, `(1 << 2)`. -/
def DRM_BUFFER_CONSTRAINT_USAGE_CPU_WRITE : Nat := 1 <<< 2

/-! ## The two type enumerations -/

/-- The payload kinds a type discriminant can stand for: the arms of the
unions in `struct drm_buffer_constraint` and
`struct drm_buffer_constraint_query_atom`, plus the boolean. -/
inductive ValueKind where
  | u32
  | u64
  | bool
  | blob
  deriving DecidableEq, Repr

/-- Meaning of a discriminant in the `DRM_BUFFER_CONSTRAINT_TYPE_*` family. -/
def constraintTypeKind (ty : Nat) : Option ValueKind :=
  if ty = DRM_BUFFER_CONSTRAINT_TYPE_U32 then some .u32
  else if ty = DRM_BUFFER_CONSTRAINT_TYPE_U64 then some .u64
  else if ty = DRM_BUFFER_CONSTRAINT_TYPE_BOOL then some .bool
  else if ty = DRM_BUFFER_CONSTRAINT_TYPE_BLOB then some .blob
  else none

/-- Meaning of a discriminant in the `DRM_BUFFER_CONSTRAINT_QUERY_ATOM_TYPE_*`
family. -/
def queryAtomTypeKind (ty : Nat) : Option ValueKind :=
  if ty = DRM_BUFFER_CONSTRAINT_QUERY_ATOM_TYPE_U32 then some .u32
  else if ty = DRM_BUFFER_CONSTRAINT_QUERY_ATOM_TYPE_U64 then some .u64
  else if ty = DRM_BUFFER_CONSTRAINT_QUERY_ATOM_TYPE_BLOB then some .blob
  else none

/-- Declared value type of a well-known query atom id, as the header's
`/* type: ... */` comments give it; other ids have no declared type. -/
def queryAtomDeclaredType (id : Nat) : Option Nat :=
  if id = DRM_BUFFER_CONSTRAINT_QUERY_ATOM_ID_FORMAT then
    some DRM_BUFFER_CONSTRAINT_QUERY_ATOM_TYPE_U32
  else if id = DRM_BUFFER_CONSTRAINT_QUERY_ATOM_ID_MODIFIER then
    some DRM_BUFFER_CONSTRAINT_QUERY_ATOM_TYPE_U64
  else if id = DRM_BUFFER_CONSTRAINT_QUERY_ATOM_ID_WIDTH then
    some DRM_BUFFER_CONSTRAINT_QUERY_ATOM_TYPE_U32
  else if id = DRM_BUFFER_CONSTRAINT_QUERY_ATOM_ID_HEIGHT then
    some DRM_BUFFER_CONSTRAINT_QUERY_ATOM_TYPE_U32
  else none

/-! ## Flag sets -/

/-- A set of placement attribute flags. -/
structure AttributeFlags where
  system : Bool
  contiguous : Bool
  device : Bool
  deriving DecidableEq, Repr

/-- A set of target flags. -/
structure TargetFlags where
  render : Bool
  scanout : Bool
  texture : Bool
  deriving DecidableEq, Repr

/-- A set of usage flags. -/
structure UsageFlags where
  cpu_read : Bool
  cpu_write : Bool
  deriving DecidableEq, Repr

/-- The bit of a flag when it is a member of the set, else no bit. -/
def flagBit (member : Bool) (bit : Nat) : Nat := if member then bit else 0

/-- The `attribute` word of a set of placement attribute flags. -/
def AttributeFlags.mask (f : AttributeFlags) : Nat :=
  flagBit f.system DRM_BUFFER_CONSTRAINT_PLACEMENT_ATTRIBUTE_SYSTEM |||
  flagBit f.contiguous DRM_BUFFER_CONSTRAINT_PLACEMENT_ATTRIBUTE_CONTIGUOUS |||
  flagBit f.device DRM_BUFFER_CONSTRAINT_PLACEMENT_ATTRIBUTE_DEVICE

/-- The `target` word of a set of target flags. -/
def TargetFlags.mask (f : TargetFlags) : Nat :=
  flagBit f.render DRM_BUFFER_CONSTRAINT_TARGET_RENDER |||
  flagBit f.scanout DRM_BUFFER_CONSTRAINT_TARGET_SCANOUT |||
  flagBit f.texture DRM_BUFFER_CONSTRAINT_TARGET_TEXTURE

/-- The `usage` word of a set of usage flags. -/
def UsageFlags.mask (f : UsageFlags) : Nat :=
  flagBit f.cpu_read DRM_BUFFER_CONSTRAINT_USAGE_CPU_READ |||
  flagBit f.cpu_write DRM_BUFFER_CONSTRAINT_USAGE_CPU_WRITE

/-! ## Typed values and the wire codec -/

/-- Why a placement value is rejected: the `reason` of `InvalidPlacement`. -/
inductive PlacementReason where
  | reservedNamespace
  | unknownNamespace
  | unknownGlobalId
  | contradictoryAttribute
  deriving DecidableEq, Repr

/-- Error kinds of the protocol core (section 7 of the design document), with
`InvalidBoolEncoding` of section 4.1. -/
inductive Error where
  | MalformedValue
  | BlobTooLarge
  | InvalidBoolEncoding
  | TruncatedSet
  | TrailingData
  | UnknownType (type : Nat)
  | TypeMismatch (id expected actual : Nat)
  | InvalidPlacement (reason : PlacementReason)
  | UnsupportedAtom (id : Nat)
  | DuplicateConstraintId (id : Nat)
  deriving DecidableEq, Repr

/-- The payload of a constraint: the tagged form of the union `u` of
`struct drm_buffer_constraint` together with its `type` field.  The blob arm
is the `drm_buffer_constraint_data` the pointer refers to, as its bytes. -/
inductive TypedValue where
  | U32 (value32b : Nat)
  | U64 (value64b : Nat)
  | Bool (flag : Bool)
  | Blob (data : List Nat)
  deriving DecidableEq, Repr

/-- The `type` discriminant stored with a constraint value. -/
def TypedValue.tag : TypedValue → Nat
  | .U32 _ => DRM_BUFFER_CONSTRAINT_TYPE_U32
  | .U64 _ => DRM_BUFFER_CONSTRAINT_TYPE_U64
  | .Bool _ => DRM_BUFFER_CONSTRAINT_TYPE_BOOL
  | .Blob _ => DRM_BUFFER_CONSTRAINT_TYPE_BLOB

/-- Choices the design document leaves to the implementation: the maximum
blob length, and whether a boolean byte other than 0 and 1 decodes as true. -/
structure CodecConfig where
  maxBlob : Nat
  lenientBool : Bool
  deriving DecidableEq, Repr

/-- A typed value is valid when its payload fits its type: a `__u32` below
`2 ^ 32`, a `__u64` below `2 ^ 64`, and a blob of byte values whose length fits
the 32-bit length field and the configured maximum. -/
def TypedValue.valid (cfg : CodecConfig) : TypedValue → Prop
  | .U32 v => v < 2 ^ 32
  | .U64 v => v < 2 ^ 64
  | .Bool _ => True
  | .Blob data => data.length < 2 ^ 32 ∧ data.length ≤ cfg.maxBlob ∧ ∀ b ∈ data, b < 256

instance (cfg : CodecConfig) (v : TypedValue) : Decidable (v.valid cfg) := by
  cases v <;> unfold TypedValue.valid <;> infer_instance

/-- Little-endian bytes of `v`, `width` of them. -/
def encodeLE : Nat → Nat → List Nat
  | 0, _ => []
  | width + 1, v => v % 256 :: encodeLE width (v / 256)

/-- The number a little-endian byte string stands for. -/
def decodeLE : List Nat → Nat
  | [] => 0
  | b :: bs => b + 256 * decodeLE bs

/-- Modelled from the spec: the value encoder `encode(value) -> bytes` of
section 4.1, which the header does not contain.  Per section 6 a u32 is 4
bytes, a u64 is 8 bytes, a bool is the canonical byte 0 or 1, a blob is its
u32 length followed by its bytes; integers are little-endian. -/
def encode : TypedValue → List Nat
  | .U32 v => encodeLE 4 v
  | .U64 v => encodeLE 8 v
  | .Bool b => [if b then 1 else 0]
  | .Blob data => encodeLE 4 data.length ++ data

/-- Modelled from the spec: the self-delimiting value reader behind
`decode(bytes, declared_type)` of section 4.1, which the header does not
contain.  It returns the value and the bytes that follow it.  It fails with
`MalformedValue` when the buffer is shorter than the fixed width or than a
blob's declared length, with `BlobTooLarge` when the declared length is over
the maximum, with `InvalidBoolEncoding` on a non-canonical boolean byte unless
the configuration permits it, and with `UnknownType` on a discriminant outside
`DRM_BUFFER_CONSTRAINT_TYPE_*`. -/
def decodeValue (cfg : CodecConfig) (bytes : List Nat) (declared_type : Nat) :
    Except Error (TypedValue × List Nat) :=
  match constraintTypeKind declared_type with
  | none => .error (.UnknownType declared_type)
  | some .u32 =>
    if bytes.length < 4 then .error .MalformedValue
    else .ok (.U32 (decodeLE (bytes.take 4)), bytes.drop 4)
  | some .u64 =>
    if bytes.length < 8 then .error .MalformedValue
    else .ok (.U64 (decodeLE (bytes.take 8)), bytes.drop 8)
  | some .bool =>
    match bytes with
    | [] => .error .MalformedValue
    | b :: rest =>
      if b = 0 then .ok (.Bool false, rest)
      else if b = 1 then .ok (.Bool true, rest)
      else if cfg.lenientBool then .ok (.Bool true, rest)
      else .error .InvalidBoolEncoding
  | some .blob =>
    if bytes.length < 4 then .error .MalformedValue
    else
      let len := decodeLE (bytes.take 4)
      if cfg.maxBlob < len then .error .BlobTooLarge
      else if (bytes.drop 4).length < len then .error .MalformedValue
      else .ok (.Blob ((bytes.drop 4).take len), (bytes.drop 4).drop len)

/-- Modelled from the spec: `decode(bytes, declared_type) -> TypedValue` of
section 4.1, which the header does not contain: the value read at the start
of the buffer. -/
def decode (cfg : CodecConfig) (bytes : List Nat) (declared_type : Nat) :
    Except Error TypedValue :=
  match decodeValue cfg bytes declared_type with
  | .error e => .error e
  | .ok (v, _) => .ok v

/-- A constraint: the `id` of `struct drm_buffer_constraint` with its typed
value. -/
structure Constraint where
  id : Nat
  value : TypedValue
  deriving DecidableEq, Repr

/-- The entries of a `struct drm_buffer_constraint_set`; `count` is the
length of the list. -/
abbrev ConstraintSet := List Constraint

/-- A constraint set is well formed when its count and ids fit their `__u32`
fields and every value is valid. -/
def ConstraintSet.wellFormed (cfg : CodecConfig) (s : ConstraintSet) : Prop :=
  s.length < 2 ^ 32 ∧ ∀ c ∈ s, c.id < 2 ^ 32 ∧ c.value.valid cfg

instance (cfg : CodecConfig) (s : ConstraintSet) : Decidable (ConstraintSet.wellFormed cfg s) := by
  unfold ConstraintSet.wellFormed; infer_instance

/-- Modelled from the spec: one `{id:u32, type:u32, value}` entry of an
encoded constraint set (section 4.1), which the header does not contain. -/
def encodeConstraint (c : Constraint) : List Nat :=
  encodeLE 4 c.id ++ encodeLE 4 c.value.tag ++ encode c.value

/-- Modelled from the spec: the entries of an encoded constraint set, one
after the other. -/
def encodeEntries : ConstraintSet → List Nat
  | [] => []
  | c :: cs => encodeConstraint c ++ encodeEntries cs

/-- Modelled from the spec: the encoder of a ConstraintSet (section 4.1),
which the header does not contain: a 32-bit count followed by that many
entries. -/
def encodeSet (s : ConstraintSet) : List Nat :=
  encodeLE 4 s.length ++ encodeEntries s

/-- Read one little-endian `__u32` off the front of the buffer. -/
def readU32 (bytes : List Nat) : Option (Nat × List Nat) :=
  if bytes.length < 4 then none else some (decodeLE (bytes.take 4), bytes.drop 4)

/-- Modelled from the spec: reading `count` entries off the buffer (section
4.1).  Whenever the buffer runs out before the declared count is consumed,
inside a header or inside a value, the failure is `TruncatedSet`. -/
def decodeEntries (cfg : CodecConfig) : Nat → List Nat → Except Error (ConstraintSet × List Nat)
  | 0, bytes => .ok ([], bytes)
  | count + 1, bytes =>
    match readU32 bytes with
    | none => .error .TruncatedSet
    | some (id, afterId) =>
      match readU32 afterId with
      | none => .error .TruncatedSet
      | some (type, afterType) =>
        match decodeValue cfg afterType type with
        | .error .MalformedValue => .error .TruncatedSet
        | .error e => .error e
        | .ok (value, afterValue) =>
          match decodeEntries cfg count afterValue with
          | .error e => .error e
          | .ok (cs, rest) => .ok ({ id := id, value := value } :: cs, rest)

/-- Modelled from the spec: the structural pass of the set decoder (section
4.1): the count, then that many entries, then nothing; `TruncatedSet` if the
buffer runs out early and `TrailingData` if bytes remain. -/
def parseSet (cfg : CodecConfig) (bytes : List Nat) : Except Error ConstraintSet :=
  match readU32 bytes with
  | none => .error .TruncatedSet
  | some (count, afterCount) =>
    match decodeEntries cfg count afterCount with
    | .error e => .error e
    | .ok (cs, []) => .ok cs
    | .ok (_, _ :: _) => .error .TrailingData

/-- The first id that occurs again later in the list. -/
def firstDuplicate : List Nat → Option Nat
  | [] => none
  | x :: xs => if x ∈ xs then some x else firstDuplicate xs

/-- Modelled from the spec: the registry check of section 4.3.  `registry`
is the table `id -> expected type`; an id absent from it passes with whatever
type it has. -/
def checkTypes (registry : Nat → Option Nat) : ConstraintSet → Except Error Unit
  | [] => .ok ()
  | c :: cs =>
    match registry c.id with
    | none => checkTypes registry cs
    | some expected =>
      if expected = c.value.tag then checkTypes registry cs
      else .error (.TypeMismatch c.id expected c.value.tag)

/-- Modelled from the spec: the decoder of a ConstraintSet, which the header
does not contain: the structural pass, then the duplicate id check of section
3, then the registry check of section 4.3. -/
def decodeSet (cfg : CodecConfig) (registry : Nat → Option Nat) (bytes : List Nat) :
    Except Error ConstraintSet :=
  match parseSet cfg bytes with
  | .error e => .error e
  | .ok cs =>
    match firstDuplicate (cs.map Constraint.id) with
    | some id => .error (.DuplicateConstraintId id)
    | none =>
      match checkTypes registry cs with
      | .error e => .error e
      | .ok _ => .ok cs

/-! ## Placement values -/

/-- The fields of `struct drm_buffer_constraint_placement`; `nspace` is the
field `namespace` and `attr` the field `attribute`. -/
structure PlacementValue where
  nspace : Nat
  placement_id : Nat
  bank : Nat
  attr : Nat
  deriving DecidableEq, Repr

/-- Modelled from the spec: `validate(PlacementValue)` of section 4.2, which
the header does not contain.  Namespace 0 is reserved; the namespace must be a
known constant or at least `firstExtensionNamespace`, a value the design
document leaves open; in the GLOBAL namespace the placement id must be SYSTEM,
SYSTEM_CONTIGUOUS or PCI, and the DEVICE attribute contradicts the GLOBAL
namespace.  In the DRM namespace every bank is allowed with the local
placement. -/
def validate (firstExtensionNamespace : Nat) (p : PlacementValue) : Except Error Unit :=
  if p.nspace = 0 then .error (.InvalidPlacement .reservedNamespace)
  else if ¬ (p.nspace = DRM_BUFFER_CONSTRAINT_PLACEMENT_NAMESPACE_GLOBAL ∨
      p.nspace = DRM_BUFFER_CONSTRAINT_PLACEMENT_NAMESPACE_DMABUF_HEAP ∨
      p.nspace = DRM_BUFFER_CONSTRAINT_PLACEMENT_NAMESPACE_DRM ∨
      firstExtensionNamespace ≤ p.nspace) then
    .error (.InvalidPlacement .unknownNamespace)
  else if p.nspace = DRM_BUFFER_CONSTRAINT_PLACEMENT_NAMESPACE_GLOBAL ∧
      ¬ (p.placement_id = DRM_BUFFER_CONSTRAINT_PLACEMENT_ID_GLOBAL_SYSTEM ∨
         p.placement_id = DRM_BUFFER_CONSTRAINT_PLACEMENT_ID_GLOBAL_SYSTEM_CONTIGUOUS ∨
         p.placement_id = DRM_BUFFER_CONSTRAINT_PLACEMENT_ID_GLOBAL_PCI) then
    .error (.InvalidPlacement .unknownGlobalId)
  else if p.nspace = DRM_BUFFER_CONSTRAINT_PLACEMENT_NAMESPACE_GLOBAL ∧
      p.attr &&& DRM_BUFFER_CONSTRAINT_PLACEMENT_ATTRIBUTE_DEVICE ≠ 0 then
    .error (.InvalidPlacement .contradictoryAttribute)
  else .ok ()

/-- Modelled from the spec: the structured interpretation of a placement blob
(section 3): four little-endian `__u32` fields in the order of
`struct drm_buffer_constraint_placement`. -/
def decodePlacement (data : List Nat) : Except Error PlacementValue :=
  if data.length = 16 then
    .ok { nspace := decodeLE (data.take 4)
          placement_id := decodeLE ((data.drop 4).take 4)
          bank := decodeLE ((data.drop 8).take 4)
          attr := decodeLE ((data.drop 12).take 4) }
  else .error .MalformedValue

/-- Modelled from the spec: namespace validation of a constraint set (section
4.4): every blob constraint with id PLACEMENT is interpreted as a placement
value and validated. -/
def validatePlacements (firstExtensionNamespace : Nat) : ConstraintSet → Except Error Unit
  | [] => .ok ()
  | c :: cs =>
    if c.id = DRM_BUFFER_CONSTRAINT_PLACEMENT then
      match c.value with
      | .Blob data =>
        match decodePlacement data with
        | .error e => .error e
        | .ok p =>
          match validate firstExtensionNamespace p with
          | .error e => .error e
          | .ok _ => validatePlacements firstExtensionNamespace cs
      | _ => validatePlacements firstExtensionNamespace cs
    else validatePlacements firstExtensionNamespace cs

/-! ## Query atoms and the negotiation session -/

/-- The payload of a query atom: the tagged form of the union `u` of
`struct drm_buffer_constraint_query_atom`. -/
inductive AtomValue where
  | U32 (value32b : Nat)
  | U64 (value64b : Nat)
  | Blob (data : List Nat)
  deriving DecidableEq, Repr

/-- The `type` discriminant stored with a query atom value. -/
def AtomValue.tag : AtomValue → Nat
  | .U32 _ => DRM_BUFFER_CONSTRAINT_QUERY_ATOM_TYPE_U32
  | .U64 _ => DRM_BUFFER_CONSTRAINT_QUERY_ATOM_TYPE_U64
  | .Blob _ => DRM_BUFFER_CONSTRAINT_QUERY_ATOM_TYPE_BLOB

/-- The integer carried by an atom fits its width. -/
def AtomValue.fits : AtomValue → Prop
  | .U32 v => v < 2 ^ 32
  | .U64 v => v < 2 ^ 64
  | .Blob data => ∀ b ∈ data, b < 256

instance (v : AtomValue) : Decidable v.fits := by
  cases v <;> unfold AtomValue.fits <;> infer_instance

/-- A query atom: `struct drm_buffer_constraint_query_atom`. -/
structure QueryAtom where
  id : Nat
  value : AtomValue
  deriving DecidableEq, Repr

/-- The requester's part of `struct drm_buffer_constraint_prepare`. -/
structure PrepareDescriptor where
  target : Nat
  usage : Nat
  deriving DecidableEq, Repr

/-- The requester's part of `struct drm_buffer_constraint_request`;
`atom_count` is the length of `atoms`. -/
structure RequestDescriptor where
  target : Nat
  usage : Nat
  atoms : List QueryAtom
  deriving DecidableEq, Repr

/-- The atoms of the design document's scenario: FORMAT = 0x34324142,
WIDTH = 1920, HEIGHT = 1080, each a u32. -/
def scenarioAtoms : List QueryAtom :=
  [{ id := DRM_BUFFER_CONSTRAINT_QUERY_ATOM_ID_FORMAT, value := .U32 0x34324142 },
   { id := DRM_BUFFER_CONSTRAINT_QUERY_ATOM_ID_WIDTH, value := .U32 1920 },
   { id := DRM_BUFFER_CONSTRAINT_QUERY_ATOM_ID_HEIGHT, value := .U32 1080 }]

/-- The provider's own logic, an external collaborator: which atom ids it
accepts for a target and usage, and how it resolves a request into a
constraint set. -/
structure Provider where
  acceptedAtoms : PrepareDescriptor → List Nat
  resolve : RequestDescriptor → Except Error ConstraintSet

/-- One invocation of the provider's logic. -/
inductive ProviderCall where
  | capability (descriptor : PrepareDescriptor)
  | resolution (request : RequestDescriptor)
  deriving DecidableEq, Repr

/-- The states of the protocol state machine (section 4.4). -/
inductive SessionState where
  | Idle
  | Discovering (descriptor : PrepareDescriptor)
  | Discovered (atom_ids : List Nat)
  | Requesting (request : RequestDescriptor)
  | Completed (constraints : ConstraintSet)
  | Failed (reason : Error)
  deriving DecidableEq, Repr

/-- A negotiation session: its state, and the provider logic it has invoked
so far, oldest first. -/
structure Session where
  state : SessionState
  calls : List ProviderCall
  deriving DecidableEq, Repr

/-- A fresh session. -/
def Session.fresh : Session := { state := .Idle, calls := [] }

/-- What the design document leaves to the deployment: the codec choices, the
constraint registry `id -> expected type`, and the first extension namespace. -/
structure CoreConfig where
  codec : CodecConfig
  registry : Nat → Option Nat
  firstExtensionNamespace : Nat

/-- Modelled from the spec: the transition `Idle --discover--> Discovering` and
on to `Discovered` (section 4.4), which the header does not contain: the
provider computes the accepted atom id list.  The transition exists only from
`Idle`. -/
def discover (provider : Provider) (descriptor : PrepareDescriptor) (s : Session) :
    Option Session :=
  match s.state with
  | .Idle =>
    some { state := .Discovered (provider.acceptedAtoms descriptor)
           calls := s.calls ++ [.capability descriptor] }
  | _ => none

/-- The id of the first atom of the request that is not in the discovered
list. -/
def firstUnsupported (atom_ids : List Nat) : List QueryAtom → Option Nat
  | [] => none
  | a :: rest => if a.id ∈ atom_ids then firstUnsupported atom_ids rest else some a.id

/-- Modelled from the spec: the transition `Discovered --build_request-->
Requesting` (section 4.4), which the header does not contain: an atom id
outside the discovery result fails with `UnsupportedAtom(id)` before any
provider-side work. -/
def build_request (request : RequestDescriptor) (s : Session) : Option Session :=
  match s.state with
  | .Discovered atom_ids =>
    match firstUnsupported atom_ids request.atoms with
    | some id => some { s with state := .Failed (.UnsupportedAtom id) }
    | none => some { s with state := .Requesting request }
  | _ => none

/-- Modelled from the spec: the registry check of section 4.3 on the atoms of
a request, against the declared types of the well-known atom ids. -/
def checkAtomTypes : List QueryAtom → Except Error Unit
  | [] => .ok ()
  | a :: rest =>
    match queryAtomDeclaredType a.id with
    | none => checkAtomTypes rest
    | some expected =>
      if expected = a.value.tag then checkAtomTypes rest
      else .error (.TypeMismatch a.id expected a.value.tag)

/-- Modelled from the spec: what the core does with the provider's constraint
set before returning it (sections 2 and 4.4): it is serialized, decoded and
validated by the codec, and namespace-validated. -/
def validateResponse (cfg : CoreConfig) (constraints : ConstraintSet) :
    Except Error ConstraintSet :=
  match decodeSet cfg.codec cfg.registry (encodeSet constraints) with
  | .error e => .error e
  | .ok decoded =>
    match validatePlacements cfg.firstExtensionNamespace decoded with
    | .error e => .error e
    | .ok _ => .ok decoded

/-- Modelled from the spec: the transition `Requesting --negotiate-->
Completed` (section 4.4), which the header does not contain: the atoms are
checked against the registry, the provider resolves the request, and the
result is validated; any failure leads to `Failed`. -/
def resolveRequest (cfg : CoreConfig) (provider : Provider) (s : Session) : Option Session :=
  match s.state with
  | .Requesting request =>
    match checkAtomTypes request.atoms with
    | .error e => some { s with state := .Failed e }
    | .ok _ =>
      let calls := s.calls ++ [.resolution request]
      match provider.resolve request with
      | .error e => some { state := .Failed e, calls := calls }
      | .ok constraints =>
        match validateResponse cfg constraints with
        | .error e => some { state := .Failed e, calls := calls }
        | .ok decoded => some { state := .Completed decoded, calls := calls }
  | _ => none

/-- Modelled from the spec: the Negotiate exchange of section 6, which the
header does not contain: on a session that has discovered, the request is
built and, unless that failed, resolved. -/
def negotiate (cfg : CoreConfig) (provider : Provider) (request : RequestDescriptor)
    (s : Session) : Option Session :=
  match build_request request s with
  | none => none
  | some built =>
    match built.state with
    | .Requesting _ => resolveRequest cfg provider built
    | _ => some built

/-- The result a session hands back to the requester, once it has one. -/
def Session.result (s : Session) : Option (Except Error ConstraintSet) :=
  match s.state with
  | .Completed constraints => some (.ok constraints)
  | .Failed reason => some (.error reason)
  | _ => none

/-- The resolution requests the provider has received in a session. -/
def Session.resolutions (s : Session) : List RequestDescriptor :=
  s.calls.filterMap fun c =>
    match c with
    | .resolution r => some r
    | .capability _ => none

/-! ## Layout of the declared structs -/

/-- Size and alignment of a C object type, in bytes. -/
structure CLayout where
  size : Nat
  align : Nat
  deriving DecidableEq, Repr

/-- What the header leaves to the target: the alignment of `__u64` (8 on the
64-bit targets, 4 on i386) and the size of a data pointer, which is also its
alignment.  `__u32` is 4 bytes, 4-aligned, and `__u64` is 8 bytes. -/
structure ABI where
  u64Align : Nat
  pointerSize : Nat
  deriving DecidableEq, Repr

/-- Layout of `__u32`. -/
def ABI.u32 (_abi : ABI) : CLayout := { size := 4, align := 4 }

/-- Layout of `__u64`. -/
def ABI.u64 (abi : ABI) : CLayout := { size := 8, align := abi.u64Align }

/-- Layout of a data pointer. -/
def ABI.pointer (abi : ABI) : CLayout := { size := abi.pointerSize, align := abi.pointerSize }

/-- The 64-bit targets: `__u64` and pointers are 8 bytes, 8-aligned. -/
def lp64 : ABI := { u64Align := 8, pointerSize := 8 }

/-- The i386 target: `__u64` is 4-aligned and pointers are 4 bytes. -/
def ilp32 : ABI := { u64Align := 4, pointerSize := 4 }

/-- The targets covered: `__u64` is 4- or 8-aligned and pointers are 4 or 8
bytes. -/
def ABI.supported (abi : ABI) : Prop :=
  (abi.u64Align = 4 ∨ abi.u64Align = 8) ∧ (abi.pointerSize = 4 ∨ abi.pointerSize = 8)

instance (abi : ABI) : Decidable abi.supported := by
  unfold ABI.supported; infer_instance

/-- The first multiple of `align` at or after `offset`. -/
def alignUp (offset align : Nat) : Nat := (offset + align - 1) / align * align

/-- The C rule for the members of a struct: in declaration order, each at
the first offset at or after the end of the previous member that is a multiple
of its alignment. -/
def memberOffsets : Nat → List CLayout → List Nat
  | _, [] => []
  | offset, m :: rest =>
    alignUp offset m.align :: memberOffsets (alignUp offset m.align + m.size) rest

/-- The end of the last member of a struct laid out from `offset`. -/
def membersEnd : Nat → List CLayout → Nat
  | offset, [] => offset
  | offset, m :: rest => membersEnd (alignUp offset m.align + m.size) rest

/-- The strictest alignment among the members. -/
def maxAlign (members : List CLayout) : Nat :=
  members.foldl (fun a m => max a m.align) 1

/-- The widest member. -/
def maxSize (members : List CLayout) : Nat :=
  members.foldl (fun a m => max a m.size) 0

/-- The C rule for a struct: aligned as its strictest member, and as large as
the end of its last member rounded up to that alignment. -/
def structLayout (members : List CLayout) : CLayout :=
  { size := alignUp (membersEnd 0 members) (maxAlign members), align := maxAlign members }

/-- The C rule for a union: aligned as its strictest member, and as large as
its widest member rounded up to that alignment. -/
def unionLayout (members : List CLayout) : CLayout :=
  { size := alignUp (maxSize members) (maxAlign members), align := maxAlign members }

/-- The C rule for an array of `count` elements. -/
def arrayLayout (element : CLayout) (count : Nat) : CLayout :=
  { size := count * element.size, align := element.align }

/-- The union `u` of `struct drm_buffer_constraint`: `__u32 value32b`,
`__u64 value64b`, `struct drm_buffer_constraint_data *data`. -/
def drm_buffer_constraint_u (abi : ABI) : CLayout :=
  unionLayout [abi.u32, abi.u64, abi.pointer]

/-- The members of `struct drm_buffer_constraint`: `__u32 id`, `__u32 type`,
the union `u`. -/
def drm_buffer_constraint_members (abi : ABI) : List CLayout :=
  [abi.u32, abi.u32, drm_buffer_constraint_u abi]

/-- Layout of `struct drm_buffer_constraint`. -/
def drm_buffer_constraint (abi : ABI) : CLayout :=
  structLayout (drm_buffer_constraint_members abi)

/-- The members of `struct drm_buffer_constraint_set`: `__u32 count`,
`struct drm_buffer_constraint list[0]`. -/
def drm_buffer_constraint_set_members (abi : ABI) : List CLayout :=
  [abi.u32, arrayLayout (drm_buffer_constraint abi) 0]

/-- Offset of the member `list` in `struct drm_buffer_constraint_set`. -/
def listOffset (abi : ABI) : Nat :=
  (memberOffsets 0 (drm_buffer_constraint_set_members abi)).getD 1 0

/-- Offset of the entry `list[i]` from the start of a
`struct drm_buffer_constraint_set`: array elements are one element size
apart. -/
def listEntryOffset (abi : ABI) (i : Nat) : Nat :=
  listOffset abi + i * (drm_buffer_constraint abi).size

/-! ## Concrete inputs -/

/-- A codec configuration: blobs of at most 64 bytes, strict booleans. -/
def codecWitness : CodecConfig := { maxBlob := 64, lenientBool := false }

/-- A constraint set whose last entry is a placement blob (DRM namespace,
local placement). -/
def setWitness : ConstraintSet :=
  [{ id := 5, value := TypedValue.Bool true },
   { id := 1, value := TypedValue.Blob [3, 0, 0, 0, 0, 0, 0, 0, 0, 0, 0, 0, 8, 0, 0, 0] }]

/-- A constraint set whose last entry is a blob of 65 bytes, one more than
the maximum of `codecWitness`. -/
def oversizeWitness : ConstraintSet :=
  [{ id := 5, value := TypedValue.Bool true },
   { id := 1, value := TypedValue.Blob (List.replicate 65 0) }]

/-- The placement value of the witness of C2: GLOBAL namespace, id 3, bank 7,
DEVICE attribute. -/
def placementWitness : PlacementValue :=
  { nspace := 1, placement_id := 3, bank := 7, attr := 8 }

/-- The provider of the witness of C5: it accepts FORMAT, WIDTH and HEIGHT. -/
def providerWitness : Provider :=
  { acceptedAtoms := fun _ => [1, 3, 4]
    resolve := fun _ => Except.ok [] }

/-- The configuration of the witness of C5. -/
def coreConfigWitness : CoreConfig :=
  { codec := { maxBlob := 64, lenientBool := false }
    registry := fun _ => none
    firstExtensionNamespace := 256 }

/-- The request of the witness of C5: the scenario atoms and a MODIFIER atom,
which the provider did not advertise. -/
def requestWitness : RequestDescriptor :=
  { target := 4, usage := 2, atoms := scenarioAtoms ++ [{ id := 2, value := AtomValue.U64 0 }] }

/-! # Theorems -/

/-! ## Facts about the constants -/

/-- C1: the constraint type and query atom type discriminants are two distinct
enumerations.  Constraint types are U32 = 1, U64 = 2, BOOL = 3, BLOB = 4; atom
types are U32 = 1, U64 = 2, BLOB = 3 and no atom discriminant means BOOL; the
two agree on U32 and U64; 3 means BOOL for a constraint and BLOB for an atom,
and 4, BLOB for a constraint, is no atom type. -/
theorem type_enumerations_distinct :
    (DRM_BUFFER_CONSTRAINT_TYPE_U32 = 1 ∧ DRM_BUFFER_CONSTRAINT_TYPE_U64 = 2 ∧
      DRM_BUFFER_CONSTRAINT_TYPE_BOOL = 3 ∧ DRM_BUFFER_CONSTRAINT_TYPE_BLOB = 4) ∧
    (DRM_BUFFER_CONSTRAINT_QUERY_ATOM_TYPE_U32 = 1 ∧
      DRM_BUFFER_CONSTRAINT_QUERY_ATOM_TYPE_U64 = 2 ∧
      DRM_BUFFER_CONSTRAINT_QUERY_ATOM_TYPE_BLOB = 3) ∧
    (∀ ty, queryAtomTypeKind ty ≠ some ValueKind.bool) ∧
    (∀ ty, constraintTypeKind ty = some ValueKind.u32 ↔ queryAtomTypeKind ty = some ValueKind.u32) ∧
    (∀ ty, constraintTypeKind ty = some ValueKind.u64 ↔ queryAtomTypeKind ty = some ValueKind.u64) ∧
    (constraintTypeKind 3 = some ValueKind.bool ∧ queryAtomTypeKind 3 = some ValueKind.blob) ∧
    (constraintTypeKind 4 = some ValueKind.blob ∧ queryAtomTypeKind 4 = none) ∧
    (∀ ty, constraintTypeKind ty = some ValueKind.blob ↔ ty = 4) ∧
    (∀ ty, queryAtomTypeKind ty = some ValueKind.blob ↔ ty = 3) := by
  refine ⟨by decide, by decide, ?_, ?_, ?_, by decide, by decide, ?_, ?_⟩ <;> intro ty <;>
    simp only [constraintTypeKind, queryAtomTypeKind, DRM_BUFFER_CONSTRAINT_TYPE_U32,
      DRM_BUFFER_CONSTRAINT_TYPE_U64, DRM_BUFFER_CONSTRAINT_TYPE_BOOL,
      DRM_BUFFER_CONSTRAINT_TYPE_BLOB, DRM_BUFFER_CONSTRAINT_QUERY_ATOM_TYPE_U32,
      DRM_BUFFER_CONSTRAINT_QUERY_ATOM_TYPE_U64, DRM_BUFFER_CONSTRAINT_QUERY_ATOM_TYPE_BLOB] <;>
    split_ifs <;> simp_all

/-- C6: the well-known ids are numbered consecutively from 1 in declaration
order: constraint ids PLACEMENT = 1, ADDRESS_ALIGNMENT = 2, ADDRESS_MASK = 3,
CACHE = 4, CONTIGUOUS = 5 and query atom ids FORMAT = 1, MODIFIER = 2,
WIDTH = 3, HEIGHT = 4; in each id space the ids are pairwise distinct and none
is 0. -/
theorem well_known_ids_consecutive :
    (DRM_BUFFER_CONSTRAINT_PLACEMENT = 1 ∧ DRM_BUFFER_CONSTRAINT_ADDRESS_ALIGNMENT = 2 ∧
      DRM_BUFFER_CONSTRAINT_ADDRESS_MASK = 3 ∧ DRM_BUFFER_CONSTRAINT_CACHE = 4 ∧
      DRM_BUFFER_CONSTRAINT_CONTIGUOUS = 5) ∧
    (DRM_BUFFER_CONSTRAINT_QUERY_ATOM_ID_FORMAT = 1 ∧
      DRM_BUFFER_CONSTRAINT_QUERY_ATOM_ID_MODIFIER = 2 ∧
      DRM_BUFFER_CONSTRAINT_QUERY_ATOM_ID_WIDTH = 3 ∧
      DRM_BUFFER_CONSTRAINT_QUERY_ATOM_ID_HEIGHT = 4) ∧
    drm_buffer_constraint_id = List.range' 1 5 ∧
    drm_buffer_constraint_query_atom_id = List.range' 1 4 ∧
    drm_buffer_constraint_id.Nodup ∧ drm_buffer_constraint_query_atom_id.Nodup ∧
    0 ∉ drm_buffer_constraint_id ∧ 0 ∉ drm_buffer_constraint_query_atom_id := by
  decide

/-- C7: the known placement namespaces are GLOBAL = 1, DMABUF_HEAP = 2 and
DRM = 3, pairwise distinct and none equal to the reserved namespace 0; the
DRM placement id for memory local to the queried device is 0. -/
theorem placement_namespaces :
    DRM_BUFFER_CONSTRAINT_PLACEMENT_NAMESPACE_GLOBAL = 1 ∧
    DRM_BUFFER_CONSTRAINT_PLACEMENT_NAMESPACE_DMABUF_HEAP = 2 ∧
    DRM_BUFFER_CONSTRAINT_PLACEMENT_NAMESPACE_DRM = 3 ∧
    [DRM_BUFFER_CONSTRAINT_PLACEMENT_NAMESPACE_GLOBAL,
      DRM_BUFFER_CONSTRAINT_PLACEMENT_NAMESPACE_DMABUF_HEAP,
      DRM_BUFFER_CONSTRAINT_PLACEMENT_NAMESPACE_DRM].Nodup ∧
    0 ∉ [DRM_BUFFER_CONSTRAINT_PLACEMENT_NAMESPACE_GLOBAL,
      DRM_BUFFER_CONSTRAINT_PLACEMENT_NAMESPACE_DMABUF_HEAP,
      DRM_BUFFER_CONSTRAINT_PLACEMENT_NAMESPACE_DRM] ∧
    DRM_BUFFER_CONSTRAINT_PLACEMENT_ID_DRM_LOCAL = 0 := by
  decide

/-- C8: the declared value types of the well-known query atom ids are FORMAT
u32, MODIFIER u64, WIDTH u32, HEIGHT u32; the scenario atoms
FORMAT = 0x34324142, WIDTH = 1920 and HEIGHT = 1080 are tagged u32, which is
the declared type of each, and each value fits in 32 bits. -/
theorem query_atom_declared_types :
    queryAtomDeclaredType DRM_BUFFER_CONSTRAINT_QUERY_ATOM_ID_FORMAT =
      some DRM_BUFFER_CONSTRAINT_QUERY_ATOM_TYPE_U32 ∧
    queryAtomDeclaredType DRM_BUFFER_CONSTRAINT_QUERY_ATOM_ID_MODIFIER =
      some DRM_BUFFER_CONSTRAINT_QUERY_ATOM_TYPE_U64 ∧
    queryAtomDeclaredType DRM_BUFFER_CONSTRAINT_QUERY_ATOM_ID_WIDTH =
      some DRM_BUFFER_CONSTRAINT_QUERY_ATOM_TYPE_U32 ∧
    queryAtomDeclaredType DRM_BUFFER_CONSTRAINT_QUERY_ATOM_ID_HEIGHT =
      some DRM_BUFFER_CONSTRAINT_QUERY_ATOM_TYPE_U32 ∧
    scenarioAtoms.map QueryAtom.id =
      [DRM_BUFFER_CONSTRAINT_QUERY_ATOM_ID_FORMAT, DRM_BUFFER_CONSTRAINT_QUERY_ATOM_ID_WIDTH,
       DRM_BUFFER_CONSTRAINT_QUERY_ATOM_ID_HEIGHT] ∧
    scenarioAtoms.map QueryAtom.value =
      [AtomValue.U32 0x34324142, AtomValue.U32 1920, AtomValue.U32 1080] ∧
    (∀ a ∈ scenarioAtoms,
      a.value.tag = DRM_BUFFER_CONSTRAINT_QUERY_ATOM_TYPE_U32 ∧
      queryAtomDeclaredType a.id = some a.value.tag ∧ a.value.fits) ∧
    checkAtomTypes scenarioAtoms = Except.ok () := by
  refine ⟨by decide, by decide, by decide, by decide, by decide, by decide, ?_, rfl⟩
  simp only [scenarioAtoms, List.forall_mem_cons, List.not_mem_nil, false_imp_iff,
    implies_true, and_true]
  decide

/-- C10: in each flag family (placement attribute, target, usage) every
constant is a power of two, the constants are pairwise bit-disjoint, and the
map from a set of flags to its mask is injective; the mask of all flags is
0x0B for attribute, 0x0E for target and 0x06 for usage, every mask lies within
it, and bit 2 of an attribute mask and bit 0 of a target or usage mask are
never set. -/
theorem flag_families_disjoint :
    (DRM_BUFFER_CONSTRAINT_PLACEMENT_ATTRIBUTE_SYSTEM = 2 ^ 0 ∧
      DRM_BUFFER_CONSTRAINT_PLACEMENT_ATTRIBUTE_CONTIGUOUS = 2 ^ 1 ∧
      DRM_BUFFER_CONSTRAINT_PLACEMENT_ATTRIBUTE_DEVICE = 2 ^ 3) ∧
    (DRM_BUFFER_CONSTRAINT_TARGET_RENDER = 2 ^ 1 ∧
      DRM_BUFFER_CONSTRAINT_TARGET_SCANOUT = 2 ^ 2 ∧
      DRM_BUFFER_CONSTRAINT_TARGET_TEXTURE = 2 ^ 3) ∧
    (DRM_BUFFER_CONSTRAINT_USAGE_CPU_READ = 2 ^ 1 ∧
      DRM_BUFFER_CONSTRAINT_USAGE_CPU_WRITE = 2 ^ 2) ∧
    (DRM_BUFFER_CONSTRAINT_PLACEMENT_ATTRIBUTE_SYSTEM &&&
        DRM_BUFFER_CONSTRAINT_PLACEMENT_ATTRIBUTE_CONTIGUOUS = 0 ∧
      DRM_BUFFER_CONSTRAINT_PLACEMENT_ATTRIBUTE_SYSTEM &&&
        DRM_BUFFER_CONSTRAINT_PLACEMENT_ATTRIBUTE_DEVICE = 0 ∧
      DRM_BUFFER_CONSTRAINT_PLACEMENT_ATTRIBUTE_CONTIGUOUS &&&
        DRM_BUFFER_CONSTRAINT_PLACEMENT_ATTRIBUTE_DEVICE = 0) ∧
    (DRM_BUFFER_CONSTRAINT_TARGET_RENDER &&& DRM_BUFFER_CONSTRAINT_TARGET_SCANOUT = 0 ∧
      DRM_BUFFER_CONSTRAINT_TARGET_RENDER &&& DRM_BUFFER_CONSTRAINT_TARGET_TEXTURE = 0 ∧
      DRM_BUFFER_CONSTRAINT_TARGET_SCANOUT &&& DRM_BUFFER_CONSTRAINT_TARGET_TEXTURE = 0) ∧
    DRM_BUFFER_CONSTRAINT_USAGE_CPU_READ &&& DRM_BUFFER_CONSTRAINT_USAGE_CPU_WRITE = 0 ∧
    (Function.Injective AttributeFlags.mask ∧ Function.Injective TargetFlags.mask ∧
      Function.Injective UsageFlags.mask) ∧
    (AttributeFlags.mask { system := true, contiguous := true, device := true } = 0x0B ∧
      TargetFlags.mask { render := true, scanout := true, texture := true } = 0x0E ∧
      UsageFlags.mask { cpu_read := true, cpu_write := true } = 0x06) ∧
    (∀ f : AttributeFlags, f.mask &&& 0x0B = f.mask ∧ f.mask.testBit 2 = false) ∧
    (∀ f : TargetFlags, f.mask &&& 0x0E = f.mask ∧ f.mask.testBit 0 = false) ∧
    (∀ f : UsageFlags, f.mask &&& 0x06 = f.mask ∧ f.mask.testBit 0 = false) := by
  refine ⟨by decide, by decide, by decide, by decide, by decide, by decide,
    ⟨?_, ?_, ?_⟩, by decide, ?_, ?_, ?_⟩
  · rintro ⟨a, b, c⟩ ⟨x, y, z⟩ h
    revert h
    cases a <;> cases b <;> cases c <;> cases x <;> cases y <;> cases z <;> decide
  · rintro ⟨a, b, c⟩ ⟨x, y, z⟩ h
    revert h
    cases a <;> cases b <;> cases c <;> cases x <;> cases y <;> cases z <;> decide
  · rintro ⟨a, b⟩ ⟨x, y⟩ h
    revert h
    cases a <;> cases b <;> cases x <;> cases y <;> decide
  · rintro ⟨a, b, c⟩
    cases a <;> cases b <;> cases c <;> decide
  · rintro ⟨a, b, c⟩
    cases a <;> cases b <;> cases c <;> decide
  · rintro ⟨a, b⟩
    cases a <;> cases b <;> decide

/-! ## Placement validation -/

/-- C2: a placement value in the GLOBAL namespace whose placement id is none
of SYSTEM, SYSTEM_CONTIGUOUS and PCI fails validation with `InvalidPlacement`,
whatever its bank and attribute are. -/
theorem validate_global_unknown_id (firstExtensionNamespace : Nat) (p : PlacementValue)
    (hns : p.nspace = DRM_BUFFER_CONSTRAINT_PLACEMENT_NAMESPACE_GLOBAL)
    (hid : p.placement_id ∉ [DRM_BUFFER_CONSTRAINT_PLACEMENT_ID_GLOBAL_SYSTEM,
      DRM_BUFFER_CONSTRAINT_PLACEMENT_ID_GLOBAL_SYSTEM_CONTIGUOUS,
      DRM_BUFFER_CONSTRAINT_PLACEMENT_ID_GLOBAL_PCI]) :
    validate firstExtensionNamespace p =
      Except.error (Error.InvalidPlacement PlacementReason.unknownGlobalId) := by
  simp only [List.mem_cons, List.mem_singleton, List.not_mem_nil, or_false] at hid
  unfold validate
  rw [if_neg (by rw [hns]; decide), if_neg (by simp [hns]), if_pos ⟨hns, hid⟩]

/-- Witness of C2 at a GLOBAL placement with id 3. -/
theorem validate_global_unknown_id_witness :
    validate 256 placementWitness =
      Except.error (Error.InvalidPlacement PlacementReason.unknownGlobalId) :=
  validate_global_unknown_id 256 placementWitness (by decide) (by decide)

/-! ## Negotiation -/

theorem firstUnsupported_spec (atom_ids : List Nat) (atoms : List QueryAtom)
    (h : ∃ a ∈ atoms, a.id ∉ atom_ids) :
    ∃ id, firstUnsupported atom_ids atoms = some id ∧ (∃ a ∈ atoms, a.id = id) ∧
      id ∉ atom_ids := by
  induction atoms with
  | nil => obtain ⟨a, ha, _⟩ := h; cases ha
  | cons a rest ih =>
    by_cases hmem : a.id ∈ atom_ids
    · obtain ⟨b, hb, hbn⟩ := h
      have hb2 : b ∈ rest := by
        rcases List.mem_cons.mp hb with rfl | hb2
        · exact absurd hmem hbn
        · exact hb2
      obtain ⟨id, h1, ⟨c, hc, hcid⟩, h3⟩ := ih ⟨b, hb2, hbn⟩
      refine ⟨id, ?_, ⟨c, List.mem_cons_of_mem _ hc, hcid⟩, h3⟩
      simp only [firstUnsupported, if_pos hmem, h1]
    · refine ⟨a.id, ?_, ⟨a, List.mem_cons_self _ _, rfl⟩, hmem⟩
      simp only [firstUnsupported, if_neg hmem]

/-- C5: when a request contains an atom whose id is not in the atom id list
returned by the preceding discover call, negotiate fails with
`UnsupportedAtom` naming the id of such an atom of the request, and the
provider's resolution logic is not invoked: the only provider call of the
session is the capability query of discover. -/
theorem negotiate_unsupported_atom (cfg : CoreConfig) (provider : Provider)
    (descriptor : PrepareDescriptor) (request : RequestDescriptor)
    (h : ∃ a ∈ request.atoms, a.id ∉ provider.acceptedAtoms descriptor) :
    ∃ id s, (∃ a ∈ request.atoms, a.id = id) ∧ id ∉ provider.acceptedAtoms descriptor ∧
      (discover provider descriptor Session.fresh).bind (negotiate cfg provider request) =
        some s ∧
      s.state = SessionState.Failed (Error.UnsupportedAtom id) ∧
      s.result = some (Except.error (Error.UnsupportedAtom id)) ∧
      s.calls = [ProviderCall.capability descriptor] ∧
      s.resolutions = [] := by
  obtain ⟨id, h1, h2, h3⟩ := firstUnsupported_spec _ _ h
  refine ⟨id, { state := SessionState.Failed (Error.UnsupportedAtom id),
                calls := [ProviderCall.capability descriptor] }, h2, h3, ?_, rfl, rfl, rfl, rfl⟩
  simp [discover, Session.fresh, negotiate, build_request, h1]

/-- Witness of C5: a request with a MODIFIER atom against a provider that
advertised FORMAT, WIDTH and HEIGHT. -/
theorem negotiate_unsupported_atom_witness :
    ∃ id s, (∃ a ∈ requestWitness.atoms, a.id = id) ∧
      id ∉ providerWitness.acceptedAtoms { target := 4, usage := 2 } ∧
      (discover providerWitness { target := 4, usage := 2 } Session.fresh).bind
        (negotiate coreConfigWitness providerWitness requestWitness) = some s ∧
      s.state = SessionState.Failed (Error.UnsupportedAtom id) ∧
      s.result = some (Except.error (Error.UnsupportedAtom id)) ∧
      s.calls = [ProviderCall.capability { target := 4, usage := 2 }] ∧
      s.resolutions = [] :=
  negotiate_unsupported_atom coreConfigWitness providerWitness { target := 4, usage := 2 }
    requestWitness ⟨{ id := 2, value := AtomValue.U64 0 }, by decide, by decide⟩

/-! ## The wire codec -/

theorem encodeLE_length (width v : Nat) : (encodeLE width v).length = width := by
  induction width generalizing v with
  | zero => rfl
  | succ w ih => simp [encodeLE, ih]

theorem decodeLE_encodeLE (width v : Nat) :
    decodeLE (encodeLE width v) = v % 256 ^ width := by
  induction width generalizing v with
  | zero => simp [encodeLE, decodeLE, Nat.mod_one]
  | succ w ih => rw [encodeLE, decodeLE, ih, pow_succ', Nat.mod_mul]

theorem take_encodeLE_append (width v : Nat) (rest : List Nat) :
    (encodeLE width v ++ rest).take width = encodeLE width v :=
  List.take_left' (encodeLE_length width v)

theorem drop_encodeLE_append (width v : Nat) (rest : List Nat) :
    (encodeLE width v ++ rest).drop width = rest :=
  List.drop_left' (encodeLE_length width v)

theorem readU32_encodeLE (v : Nat) (rest : List Nat) (hv : v < 2 ^ 32) :
    readU32 (encodeLE 4 v ++ rest) = some (v, rest) := by
  have hlen : ¬ (encodeLE 4 v ++ rest).length < 4 := by
    simp [encodeLE_length]
  unfold readU32
  rw [if_neg hlen, take_encodeLE_append, drop_encodeLE_append, decodeLE_encodeLE]
  have : v % 256 ^ 4 = v := Nat.mod_eq_of_lt (by norm_num at hv ⊢; exact hv)
  rw [this]

theorem encode_ne_nil (v : TypedValue) : encode v ≠ [] := by
  cases v <;> simp [encode, encodeLE]

theorem tag_lt (v : TypedValue) : v.tag < 2 ^ 32 := by
  cases v <;> simp [TypedValue.tag, DRM_BUFFER_CONSTRAINT_TYPE_U32,
    DRM_BUFFER_CONSTRAINT_TYPE_U64, DRM_BUFFER_CONSTRAINT_TYPE_BOOL,
    DRM_BUFFER_CONSTRAINT_TYPE_BLOB]

/-- Reading back an encoded valid value yields the value and leaves what
follows it. -/
theorem decodeValue_encode_append (cfg : CodecConfig) (v : TypedValue) (rest : List Nat)
    (hv : v.valid cfg) :
    decodeValue cfg (encode v ++ rest) v.tag = Except.ok (v, rest) := by
  cases v with
  | U32 n =>
    have hn : n % 256 ^ 4 = n := Nat.mod_eq_of_lt (by
      have : n < 2 ^ 32 := hv
      norm_num at this ⊢; exact this)
    have hlen : ¬ (encodeLE 4 n ++ rest).length < 4 := by simp [encodeLE_length]
    simp only [encode, TypedValue.tag, decodeValue, constraintTypeKind,
      DRM_BUFFER_CONSTRAINT_TYPE_U32, if_true, if_neg hlen, take_encodeLE_append,
      drop_encodeLE_append, decodeLE_encodeLE, hn]
  | U64 n =>
    have hn : n % 256 ^ 8 = n := Nat.mod_eq_of_lt (by
      have : n < 2 ^ 64 := hv
      norm_num at this ⊢; exact this)
    have hlen : ¬ (encodeLE 8 n ++ rest).length < 8 := by simp [encodeLE_length]
    simp only [encode, TypedValue.tag, decodeValue, constraintTypeKind,
      DRM_BUFFER_CONSTRAINT_TYPE_U32, DRM_BUFFER_CONSTRAINT_TYPE_U64,
      show ¬ (2 = 1) by decide, if_false, if_true, if_neg hlen, take_encodeLE_append,
      drop_encodeLE_append, decodeLE_encodeLE, hn]
  | Bool b =>
    cases b <;>
    simp [encode, TypedValue.tag, decodeValue, constraintTypeKind,
      DRM_BUFFER_CONSTRAINT_TYPE_U32, DRM_BUFFER_CONSTRAINT_TYPE_U64,
      DRM_BUFFER_CONSTRAINT_TYPE_BOOL]
  | Blob data =>
    obtain ⟨h32, hmax, _⟩ : data.length < 2 ^ 32 ∧ data.length ≤ cfg.maxBlob ∧
      ∀ b ∈ data, b < 256 := hv
    have hn : data.length % 256 ^ 4 = data.length := Nat.mod_eq_of_lt (by
      norm_num at h32 ⊢; exact h32)
    have hlen : ¬ (encodeLE 4 data.length ++ (data ++ rest)).length < 4 := by
      simp [encodeLE_length]
    have hmax2 : ¬ cfg.maxBlob < data.length := Nat.not_lt.mpr hmax
    have hfit : ¬ (data ++ rest).length < data.length := by simp
    simp only [encode, TypedValue.tag, decodeValue, constraintTypeKind,
      DRM_BUFFER_CONSTRAINT_TYPE_U32, DRM_BUFFER_CONSTRAINT_TYPE_U64,
      DRM_BUFFER_CONSTRAINT_TYPE_BOOL, DRM_BUFFER_CONSTRAINT_TYPE_BLOB, List.append_assoc]
    simp only [show ¬ (4 = 1) by decide, show ¬ (4 = 2) by decide, show ¬ (4 = 3) by decide,
      if_false, if_true, if_neg hlen, take_encodeLE_append, drop_encodeLE_append,
      decodeLE_encodeLE, hn, if_neg hmax2, if_neg hfit, List.take_left, List.drop_left]

/-- C3: decoding the encoding of a valid typed value under its own tag returns
exactly that value. -/
theorem decode_encode (cfg : CodecConfig) (v : TypedValue) (hv : v.valid cfg) :
    decode cfg (encode v) v.tag = Except.ok v := by
  have h := decodeValue_encode_append cfg v [] hv
  rw [List.append_nil] at h
  simp only [decode, h]

/-! ## Truncated constraint sets -/

/-- A valid value whose encoding lost its final byte is too short to read. -/
theorem decodeValue_truncated (cfg : CodecConfig) (v : TypedValue) (hv : v.valid cfg) :
    decodeValue cfg (encode v).dropLast v.tag = Except.error Error.MalformedValue := by
  cases v with
  | U32 n =>
    have hlen : (encodeLE 4 n).dropLast.length < 4 := by
      simp [encodeLE_length]
    simp only [encode, TypedValue.tag, decodeValue, constraintTypeKind,
      DRM_BUFFER_CONSTRAINT_TYPE_U32, if_true, if_pos hlen]
  | U64 n =>
    have hlen : (encodeLE 8 n).dropLast.length < 8 := by
      simp [encodeLE_length]
    simp only [encode, TypedValue.tag, decodeValue, constraintTypeKind,
      DRM_BUFFER_CONSTRAINT_TYPE_U32, DRM_BUFFER_CONSTRAINT_TYPE_U64,
      show ¬ (2 = 1) by decide, if_false, if_true, if_pos hlen]
  | Bool b =>
    simp [encode, TypedValue.tag, decodeValue, constraintTypeKind,
      DRM_BUFFER_CONSTRAINT_TYPE_U32, DRM_BUFFER_CONSTRAINT_TYPE_U64,
      DRM_BUFFER_CONSTRAINT_TYPE_BOOL]
  | Blob data =>
    obtain ⟨h32, hmax, _⟩ : data.length < 2 ^ 32 ∧ data.length ≤ cfg.maxBlob ∧
      ∀ b ∈ data, b < 256 := hv
    simp only [encode, TypedValue.tag, decodeValue, constraintTypeKind,
      DRM_BUFFER_CONSTRAINT_TYPE_U32, DRM_BUFFER_CONSTRAINT_TYPE_U64,
      DRM_BUFFER_CONSTRAINT_TYPE_BOOL, DRM_BUFFER_CONSTRAINT_TYPE_BLOB,
      show ¬ (4 = 1) by decide, show ¬ (4 = 2) by decide, show ¬ (4 = 3) by decide,
      if_false, if_true]
    by_cases hd : data = []
    · subst hd
      have hlen : (encodeLE 4 ([] : List Nat).length ++ []).dropLast.length < 4 := by
        simp [encodeLE_length]
      rw [if_pos hlen]
    · have hn : data.length % 256 ^ 4 = data.length := Nat.mod_eq_of_lt (by
        norm_num at h32 ⊢; exact h32)
      have hpos : 0 < data.length := List.length_pos.mpr hd
      rw [List.dropLast_append_of_ne_nil _ hd]
      have hlen : ¬ (encodeLE 4 data.length ++ data.dropLast).length < 4 := by
        simp [encodeLE_length]
      have hmax2 : ¬ cfg.maxBlob < data.length := Nat.not_lt.mpr hmax
      have hshort : data.dropLast.length < data.length := by
        rw [List.length_dropLast]; omega
      simp only [if_neg hlen, take_encodeLE_append, drop_encodeLE_append, decodeLE_encodeLE,
        hn, if_neg hmax2, if_pos hshort]

theorem encodeConstraint_ne_nil (c : Constraint) : encodeConstraint c ≠ [] := by
  unfold encodeConstraint
  exact List.append_ne_nil_of_right_ne_nil _ (encode_ne_nil c.value)

theorem encodeEntries_ne_nil (s : ConstraintSet) (hs : s ≠ []) : encodeEntries s ≠ [] := by
  cases s with
  | nil => exact absurd rfl hs
  | cons c cs =>
    unfold encodeEntries
    exact List.append_ne_nil_of_left_ne_nil (encodeConstraint_ne_nil c) _

/-- Reading the entries of a non-empty set whose encoding lost its final byte
runs out of buffer. -/
theorem decodeEntries_truncated (cfg : CodecConfig) (s : ConstraintSet) (hs : s ≠ [])
    (hv : ∀ c ∈ s, c.id < 2 ^ 32 ∧ c.value.valid cfg) :
    decodeEntries cfg s.length (encodeEntries s).dropLast = Except.error Error.TruncatedSet := by
  induction s with
  | nil => exact absurd rfl hs
  | cons c cs ih =>
    obtain ⟨hid, hval⟩ := hv c (List.mem_cons_self _ _)
    by_cases hcs : cs = []
    · subst hcs
      simp only [encodeEntries, List.append_nil, List.length_singleton, encodeConstraint]
      rw [List.dropLast_append_of_ne_nil _ (encode_ne_nil c.value), List.append_assoc]
      simp only [decodeEntries, readU32_encodeLE _ _ hid, readU32_encodeLE _ _ (tag_lt c.value),
        decodeValue_truncated cfg c.value hval]
    · have ih2 := ih hcs (fun d hd => hv d (List.mem_cons_of_mem _ hd))
      simp only [encodeEntries, List.length_cons, encodeConstraint]
      rw [List.dropLast_append_of_ne_nil _ (encodeEntries_ne_nil cs hcs), List.append_assoc,
        List.append_assoc]
      simp only [decodeEntries, readU32_encodeLE _ _ hid, readU32_encodeLE _ _ (tag_lt c.value),
        decodeValue_encode_append cfg c.value _ hval, ih2]

/-- C4, as amended: for every well-formed constraint set, that is one whose
count, ids and integers fit their fields and whose blobs are no longer than the
maximum blob length of the codec, the empty set and sets ending in a blob
included, decoding its encoding with the final byte removed fails with
`TruncatedSet`. -/
theorem decodeSet_truncated (cfg : CodecConfig) (registry : Nat → Option Nat)
    (s : ConstraintSet) (hs : ConstraintSet.wellFormed cfg s) :
    decodeSet cfg registry (encodeSet s).dropLast = Except.error Error.TruncatedSet := by
  obtain ⟨hlen, hv⟩ := hs
  have hparse : parseSet cfg (encodeSet s).dropLast = Except.error Error.TruncatedSet := by
    by_cases hnil : s = []
    · subst hnil
      rfl
    · unfold encodeSet
      rw [List.dropLast_append_of_ne_nil _ (encodeEntries_ne_nil s hnil)]
      simp only [parseSet, readU32_encodeLE _ _ hlen, decodeEntries_truncated cfg s hnil hv]
  simp only [decodeSet, hparse]

/-- C4, counterexample to the claim as stated: the set `oversizeWitness` ends in
a blob of 65 bytes and the codec accepts blobs of at most 64; decoding its
encoding with the final byte removed fails with `BlobTooLarge`, not with
`TruncatedSet`. -/
theorem oversize_blob_reported_before_truncation :
    decodeSet codecWitness (fun _ => none) (encodeSet oversizeWitness).dropLast =
      Except.error Error.BlobTooLarge := by
  rfl

/-! ## Layout of the declared structs -/

/-- On the targets covered an entry is 16 bytes. -/
theorem drm_buffer_constraint_size (abi : ABI) (h : abi.supported) :
    (drm_buffer_constraint abi).size = 16 := by
  obtain ⟨a, p⟩ := abi
  obtain ⟨ha | ha, hp | hp⟩ := h <;> simp only at ha hp <;> subst ha <;> subst hp <;> decide

/-- C9, as amended: in the declared structs the 32-bit count is at offset 0
and the first entry is at offset 4 rounded up to the alignment of an entry,
which is 8, after 4 bytes of padding, where `__u64` or pointers are 8-aligned,
and 4 otherwise; in every entry id is at offset 0, type at offset 4 and the
value union at offset 8, the union is 8 bytes and the entry 16 bytes, so the
entry has no padding, and each entry starts 16 bytes after the previous
one. -/
theorem constraint_set_struct_layout (abi : ABI) (h : abi.supported) :
    memberOffsets 0 (drm_buffer_constraint_members abi) = [0, 4, 8] ∧
    (drm_buffer_constraint_u abi).size = 8 ∧
    (drm_buffer_constraint abi).size = 16 ∧
    memberOffsets 0 (drm_buffer_constraint_set_members abi) =
      [0, if abi.u64Align = 8 ∨ abi.pointerSize = 8 then 8 else 4] ∧
    listEntryOffset abi 0 = (if abi.u64Align = 8 ∨ abi.pointerSize = 8 then 8 else 4) ∧
    ∀ i, listEntryOffset abi (i + 1) = listEntryOffset abi i + 16 := by
  have hsize := drm_buffer_constraint_size abi h
  obtain ⟨a, p⟩ := abi
  refine ⟨?_, ?_, hsize, ?_, ?_, fun i => ?_⟩
  · obtain ⟨ha | ha, hp | hp⟩ := h <;> simp only at ha hp <;> subst ha <;> subst hp <;> decide
  · obtain ⟨ha | ha, hp | hp⟩ := h <;> simp only at ha hp <;> subst ha <;> subst hp <;> decide
  · obtain ⟨ha | ha, hp | hp⟩ := h <;> simp only at ha hp <;> subst ha <;> subst hp <;> decide
  · obtain ⟨ha | ha, hp | hp⟩ := h <;> simp only at ha hp <;> subst ha <;> subst hp <;> decide
  · simp only [listEntryOffset, hsize]
    omega

/-- C9, counterexample to the claim as stated: on the 64-bit targets the first
entry of a constraint set is at offset 8, not 4, and the entries are at
offsets 8, 24, 40, 56. -/
theorem constraint_set_first_entry_lp64 :
    listEntryOffset lp64 0 = 8 ∧ listEntryOffset lp64 0 ≠ 4 ∧
    (List.range 4).map (listEntryOffset lp64) = [8, 24, 40, 56] := by
  decide

/-- Witness of C9 on the 64-bit targets. -/
theorem constraint_set_struct_layout_witness :
    lp64.supported ∧
    memberOffsets 0 (drm_buffer_constraint_members lp64) = [0, 4, 8] ∧
    (drm_buffer_constraint_u lp64).size = 8 ∧
    (drm_buffer_constraint lp64).size = 16 ∧
    memberOffsets 0 (drm_buffer_constraint_set_members lp64) =
      [0, if lp64.u64Align = 8 ∨ lp64.pointerSize = 8 then 8 else 4] ∧
    listEntryOffset lp64 0 = (if lp64.u64Align = 8 ∨ lp64.pointerSize = 8 then 8 else 4) ∧
    ∀ i, listEntryOffset lp64 (i + 1) = listEntryOffset lp64 i + 16 :=
  ⟨by decide, constraint_set_struct_layout lp64 (by decide)⟩

/-! ## Round trip of a constraint set -/

/-- Reading back the encoded entries of a well-formed set yields the entries
and leaves what follows them. -/
theorem decodeEntries_encodeEntries (cfg : CodecConfig) (s : ConstraintSet) (rest : List Nat)
    (hv : ∀ c ∈ s, c.id < 2 ^ 32 ∧ c.value.valid cfg) :
    decodeEntries cfg s.length (encodeEntries s ++ rest) = Except.ok (s, rest) := by
  induction s with
  | nil => rfl
  | cons c cs ih =>
    obtain ⟨hid, hval⟩ := hv c (List.mem_cons_self _ _)
    have ih2 := ih (fun d hd => hv d (List.mem_cons_of_mem _ hd))
    simp only [encodeEntries, List.length_cons, encodeConstraint, List.append_assoc]
    simp only [decodeEntries, readU32_encodeLE _ _ hid, readU32_encodeLE _ _ (tag_lt c.value),
      decodeValue_encode_append cfg c.value _ hval, ih2]

/-- The structural pass of the set decoder accepts the encoding of every
well-formed set and returns the set, entry order preserved. -/
theorem parseSet_encodeSet (cfg : CodecConfig) (s : ConstraintSet)
    (hs : ConstraintSet.wellFormed cfg s) :
    parseSet cfg (encodeSet s) = Except.ok s := by
  obtain ⟨hlen, hv⟩ := hs
  have h := decodeEntries_encodeEntries cfg s [] hv
  rw [List.append_nil] at h
  simp only [parseSet, encodeSet, readU32_encodeLE _ _ hlen, h]

/-- Witness of C3 at a two-byte blob. -/
theorem decode_encode_witness :
    TypedValue.valid codecWitness (TypedValue.Blob [222, 173]) ∧
    decode codecWitness (encode (TypedValue.Blob [222, 173])) (TypedValue.Blob [222, 173]).tag =
      Except.ok (TypedValue.Blob [222, 173]) :=
  ⟨by decide, decode_encode codecWitness (TypedValue.Blob [222, 173]) (by decide)⟩

/-- Witness of C4 at a set whose last entry is a blob. -/
theorem decodeSet_truncated_witness :
    ConstraintSet.wellFormed codecWitness setWitness ∧
    decodeSet codecWitness (fun _ => none) (encodeSet setWitness).dropLast =
      Except.error Error.TruncatedSet :=
  ⟨by decide, decodeSet_truncated codecWitness (fun _ => none) setWitness (by decide)⟩

end DrmBufferConstraints
